import Mathlib

/-!
# polyscope: `include/polyscope/point_cloud.h`

A shallow embedding of the point-cloud header: the `PointCloud` class, its
templated constructor, and the free functions `registerPointCloud` and
`getPointCloud`.

The header calls into collaborators whose bodies live in other files of the
library (`standardizeVectorArray`, `getNextUniqueColor`, `registerStructure`,
`getStructure`, and the static constant `PointCloud::structureTypeName`).  The
functions of the header are embedded over an `Env` that supplies these
collaborators as parameters, so that what is proved about the header holds for
every implementation of them.  Where a property depends on what a collaborator
does, the collaborator is modelled from the specification in a definition
whose doc comment says so.

C++ state (the heap of `new`/`delete`, the process-wide colour allocator, the
process-wide structure registry) is passed explicitly in a `World`.  A C++
exception is an `Except.error` result.
-/

set_option linter.dupNamespace false
set_option linter.unusedVariables false

namespace polyscope

/-! ## Data model -/

/-- A value of an IEEE floating-point type (`float`, `double`): NaN, an
infinity, or a finite value, named by the rational it equals.  The header
stores, copies and compares such values and does no arithmetic on them, so
rounding does not arise; the two zeros are one value and so are all NaNs. -/
inductive Scalar where
  | nan
  | negInf
  | finite (q : ℚ)
  | posInf
deriving DecidableEq, Repr

/-- The literal `n` is the finite value `n`. -/
instance Scalar.instOfNat (n : Nat) : OfNat Scalar n :=
  ⟨.finite n⟩

/-- The test `std::isnan`. -/
def Scalar.isNaN : Scalar → Bool
  | .nan => true
  | _ => false

/-- The IEEE comparison `a < b`: false as soon as one side is NaN. -/
def Scalar.blt : Scalar → Scalar → Bool
  | .nan, _ => false
  | _, .nan => false
  | .negInf, .negInf => false
  | .negInf, _ => true
  | .finite a, .finite b => decide (a < b)
  | .finite _, .posInf => true
  | .finite _, .negInf => false
  | .posInf, _ => false

/-- The IEEE comparison `a <= b`: false as soon as one side is NaN. -/
def Scalar.ble : Scalar → Scalar → Bool
  | .nan, _ => false
  | _, .nan => false
  | .negInf, _ => true
  | .finite a, .finite b => decide (a ≤ b)
  | .finite _, .posInf => true
  | .finite _, .negInf => false
  | .posInf, .posInf => true
  | .posInf, _ => false

instance Scalar.instLT : LT Scalar :=
  ⟨fun a b => Scalar.blt a b = true⟩

instance Scalar.instLE : LE Scalar :=
  ⟨fun a b => Scalar.ble a b = true⟩

instance Scalar.decLT (a b : Scalar) : Decidable (a < b) :=
  inferInstanceAs (Decidable (Scalar.blt a b = true))

instance Scalar.decLE (a b : Scalar) : Decidable (a ≤ b) :=
  inferInstanceAs (Decidable (Scalar.ble a b = true))

/-- The function `glm::min(a, b)`, which is `(b < a) ? b : a`. -/
def Scalar.min (a b : Scalar) : Scalar :=
  if b < a then b else a

/-- The function `glm::max(a, b)`, which is `(a < b) ? b : a`. -/
def Scalar.max (a b : Scalar) : Scalar :=
  if a < b then b else a

/-- The type `glm::vec3`: three `float` components. -/
structure Vec3 where
  x : Scalar
  y : Scalar
  z : Scalar
deriving DecidableEq, Repr

/-- Some component of the vector is NaN. -/
def Vec3.hasNaN (v : Vec3) : Bool :=
  v.x.isNaN || v.y.isNaN || v.z.isNaN

/-- The enum `DataType` of scalar quantities; the header names `STANDARD`. -/
inductive DataType where
  | STANDARD
  | OTHER (mode : Nat)
deriving DecidableEq, Repr

/-- The enum `VectorType` of vector quantities; the header names `STANDARD`. -/
inductive VectorType where
  | STANDARD
  | OTHER (mode : Nat)
deriving DecidableEq, Repr

/-- The three quantity classes forward-declared by the header
(`PointCloudScalarQuantity`, `PointCloudColorQuantity`,
`PointCloudVectorQuantity`), each with the canonical per-point array the
matching `add*QuantityImpl` receives. -/
inductive PointCloudQuantity where
  | scalar (data : List Scalar) (type : DataType)
  | color (colors : List Vec3)
  | vector (vectors : List Vec3) (vectorType : VectorType)
deriving DecidableEq, Repr

/-- A handle of `gl::GLProgram`. -/
structure GLProgram where
  handle : Nat
deriving DecidableEq, Repr

/-- The class `PointCloud`.  `name` and `quantities` are the state of the base
`QuantityStructure<PointCloud>`; the other fields are the members the header
declares, with their in-class initialisers (`pointRadius = 0.005`, named by
the decimal it is initialised from; both `unique_ptr`s null). -/
structure PointCloud where
  name : String
  quantities : List (String × PointCloudQuantity)
  points : List Vec3
  initialBaseColor : Vec3
  pointColor : Vec3
  pointRadius : Scalar := .finite (5 / 1000)
  program : Option GLProgram := none
  pickProgram : Option GLProgram := none
deriving DecidableEq, Repr

/-- Member `size_t nPoints() const { return points.size(); }`. -/
def PointCloud.nPoints (self : PointCloud) : Nat :=
  self.points.length

/-- An object a `Structure*` can point to, with its dynamic type: a
`PointCloud`, or a structure of another class (of which only the type name and
the instance name matter here). -/
inductive Structure where
  | pointCloud (pc : PointCloud)
  | other (typeName : String) (name : String)
deriving DecidableEq, Repr

/-- A non-null pointer: an address of the heap.  A nullable C++ pointer is an
`Option Ptr`, `none` being `nullptr`. -/
abbrev Ptr := Nat

/-- The free store: slot `p` holds the object at address `p`, `none` once it
has been destroyed.  Addresses are handed out in increasing order and are not
reused. -/
abbrev Heap := List (Option Structure)

/-- The live object at address `p`, if there is one. -/
def Heap.deref (h : Heap) (p : Ptr) : Option Structure :=
  match h[p]? with
  | some slot => slot
  | none => none

/-- The address the next `new` returns. -/
def Heap.fresh (h : Heap) : Ptr :=
  h.length

/-- The expression `new S(...)` once the object `s` is constructed. -/
def Heap.alloc (h : Heap) (s : Structure) : Heap :=
  h ++ [some s]

/-- The statement `delete p`. -/
def Heap.free (h : Heap) (p : Ptr) : Heap :=
  h.set p none

/-- The calls of the header into process-wide state, in the order made. -/
inductive Call where
  | getNextUniqueColor
  | registerStructure (s : Ptr) (success : Bool)
  | delete (s : Ptr)
deriving DecidableEq, Repr

/-- The process state the header works on: the heap, the state of the colour
allocator (`CS`), the state of the structure registry (`RS`), and the log of
calls made so far. -/
structure World (CS RS : Type) where
  heap : Heap
  colors : CS
  registry : RS
  log : List Call

/-- The collaborators of the header, defined elsewhere in the library.  `T` is
the template parameter: the caller's array type. -/
structure Env (T CS RS : Type) where
  /-- The function `standardizeVectorArray<glm::vec3, 3>`; an error is a thrown exception. -/
  standardizeVectorArray : T → Except String (List Vec3)
  /-- The function `getNextUniqueColor()` on the allocator state. -/
  getNextUniqueColor : CS → Vec3 × CS
  /-- The constant `PointCloud::structureTypeName`. -/
  structureTypeName : String
  /-- The function `registerStructure(s)`: the result, the heap and the registry after. -/
  registerStructure : Heap → RS → Ptr → Bool × Heap × RS
  /-- The function `getStructure(typeName, name)`; `none` is `nullptr`. -/
  getStructure : RS → String → String → Option Ptr

variable {T CS RS : Type}

/-! ## Members declared in the header and modelled from the specification -/

/-- The componentwise minimum of two vectors. -/
def Vec3.min (a b : Vec3) : Vec3 :=
  ⟨Scalar.min a.x b.x, Scalar.min a.y b.y, Scalar.min a.z b.z⟩

/-- The componentwise maximum of two vectors. -/
def Vec3.max (a b : Vec3) : Vec3 :=
  ⟨Scalar.max a.x b.x, Scalar.max a.y b.y, Scalar.max a.z b.z⟩

/-- Modelled from the spec: `PointCloud::boundingBox()`, declared in this
header, its body elsewhere.  It "returns (min corner, max corner) axis-aligned
over all points", and on an empty point set "a well-defined degenerate box
(min==max, e.g. origin)".  The corners start at the first point and take the
componentwise `glm::min` and `glm::max` with each further point. -/
def PointCloud.boundingBox (self : PointCloud) : Vec3 × Vec3 :=
  match self.points with
  | [] => (⟨0, 0, 0⟩, ⟨0, 0, 0⟩)
  | p :: rest => rest.foldl (fun box q => (Vec3.min box.1 q, Vec3.max box.2 q)) (p, p)

/-- The ways a quantity adder fails: the standardizer threw, or the
standardized array does not have one value per point. -/
inductive AddQuantityError where
  | standardize (message : String)
  | sizeMismatch (quantity : String) (expected : Nat) (given : Nat)
deriving DecidableEq, Repr

/-- Modelled from the spec: the step of the quantity adders that does "insert
into the owned quantity collection keyed by name" (the collection is state of
the base `QuantityStructure<PointCloud>`, whose body is not in this header).
Names are keys: the entry under `name` becomes `q`. -/
def PointCloud.addQuantity (self : PointCloud) (name : String) (q : PointCloudQuantity) :
    PointCloud :=
  { self with quantities := (name, q) :: self.quantities.filter (fun e => e.1 ≠ name) }

/-- The quantity attached under `name`, if there is one. -/
def PointCloud.getQuantity (self : PointCloud) (name : String) : Option PointCloudQuantity :=
  match self.quantities.find? (fun e => e.1 = name) with
  | some e => some e.2
  | none => none

/-- Modelled from the spec: `PointCloud::addScalarQuantityImpl(name, data,
type)`, declared in this header, its body elsewhere: "validate length equals
`nPoints()` (fails with a size-mismatch error otherwise), construct the
quantity object, insert into the owned quantity collection keyed by name, and
return a non-owning observer pointer to it". -/
def PointCloud.addScalarQuantityImpl (self : PointCloud) (name : String)
    (data : List Scalar) (type : DataType) : Except AddQuantityError PointCloudQuantity × PointCloud :=
  if data.length ≠ self.nPoints then
    (.error (.sizeMismatch name self.nPoints data.length), self)
  else
    (.ok (.scalar data type), self.addQuantity name (.scalar data type))

/-- Modelled from the spec: `PointCloud::addColorQuantityImpl(name, colors)`,
declared in this header, its body elsewhere; the same steps as
`addScalarQuantityImpl`. -/
def PointCloud.addColorQuantityImpl (self : PointCloud) (name : String) (colors : List Vec3) :
    Except AddQuantityError PointCloudQuantity × PointCloud :=
  if colors.length ≠ self.nPoints then
    (.error (.sizeMismatch name self.nPoints colors.length), self)
  else
    (.ok (.color colors), self.addQuantity name (.color colors))

/-- Modelled from the spec: `PointCloud::addVectorQuantityImpl(name, vectors,
vectorType)`, declared in this header, its body elsewhere; the same steps as
`addScalarQuantityImpl`. -/
def PointCloud.addVectorQuantityImpl (self : PointCloud) (name : String)
    (vectors : List Vec3) (vectorType : VectorType) :
    Except AddQuantityError PointCloudQuantity × PointCloud :=
  if vectors.length ≠ self.nPoints then
    (.error (.sizeMismatch name self.nPoints vectors.length), self)
  else
    (.ok (.vector vectors vectorType), self.addQuantity name (.vector vectors vectorType))

/-- Modelled from the spec: the template `PointCloud::addScalarQuantity(name,
values, type)`, declared in this header, its body elsewhere: "standardize the
input to canonical form", then the steps of `addScalarQuantityImpl`.
`standardizeArray` is the standardizer of the caller's array type `TS`. -/
def PointCloud.addScalarQuantity {TS : Type}
    (standardizeArray : TS → Except String (List Scalar)) (self : PointCloud) (name : String) (values : TS) (type : DataType) :
    Except AddQuantityError PointCloudQuantity × PointCloud :=
  match standardizeArray values with
  | .error e => (.error (.standardize e), self)
  | .ok data => self.addScalarQuantityImpl name data type

/-- Modelled from the spec: the template `PointCloud::addColorQuantity(name,
values)`, declared in this header, its body elsewhere: standardize, then the
steps of `addColorQuantityImpl`. -/
def PointCloud.addColorQuantity (standardizeVectorArray : T → Except String (List Vec3))
    (self : PointCloud) (name : String) (values : T) :
    Except AddQuantityError PointCloudQuantity × PointCloud :=
  match standardizeVectorArray values with
  | .error e => (.error (.standardize e), self)
  | .ok colors => self.addColorQuantityImpl name colors

/-- Modelled from the spec: the template `PointCloud::addVectorQuantity(name,
vectors, vectorType)`, declared in this header, its body elsewhere:
standardize, then the steps of `addVectorQuantityImpl`. -/
def PointCloud.addVectorQuantity (standardizeVectorArray : T → Except String (List Vec3))
    (self : PointCloud) (name : String) (vectors : T) (vectorType : VectorType) :
    Except AddQuantityError PointCloudQuantity × PointCloud :=
  match standardizeVectorArray vectors with
  | .error e => (.error (.standardize e), self)
  | .ok vs => self.addVectorQuantityImpl name vs vectorType

/-- The standardizer of an array that is already a `std::vector<double>`. -/
def standardizeArrayCanonical (values : List Scalar) : Except String (List Scalar) :=
  .ok values

/-! ## The header's functions -/

/-- The templated constructor `PointCloud::PointCloud(name, points_)`.  The
initialiser list builds the base from `name` and `points` from the
standardizer; an exception there leaves before the body runs.  The body draws
`initialBaseColor` from `getNextUniqueColor()` and copies it to
`pointColor`. -/
def PointCloud.PointCloud (env : Env T CS RS) (name : String) (points_ : T)
    (w : World CS RS) : Except String PointCloud × World CS RS :=
  match env.standardizeVectorArray points_ with
  | .error e => (.error e, w)
  | .ok points =>
    let drawn := env.getNextUniqueColor w.colors
    let initialBaseColor := drawn.1
    let pointColor := initialBaseColor
    (.ok { name := name, quantities := [], points := points,
           initialBaseColor := initialBaseColor, pointColor := pointColor },
     { w with colors := drawn.2, log := w.log ++ [Call.getNextUniqueColor] })

/-- The function `registerPointCloud(name, points, replaceIfPresent)`:
`s = new PointCloud(name, points)`, `success = registerStructure(s)`,
`if (!success) delete s`.  An exception of the constructor propagates. -/
def registerPointCloud (env : Env T CS RS) (name : String) (points : T)
    (replaceIfPresent : Bool) (w : World CS RS) : Except String Unit × World CS RS :=
  match PointCloud.PointCloud env name points w with
  | (.error e, w1) => (.error e, w1)
  | (.ok pc, w1) =>
    let s := w1.heap.fresh
    let r := env.registerStructure (w1.heap.alloc (.pointCloud pc)) w1.registry s
    let success := r.1
    let w2 : World CS RS :=
      { w1 with heap := r.2.1, registry := r.2.2,
                log := w1.log ++ [Call.registerStructure s success] }
    if !success then
      (.ok (), { w2 with heap := w2.heap.free s, log := w2.log ++ [Call.delete s] })
    else
      (.ok (), w2)

/-- The cast `dynamic_cast<PointCloud*>(p)`: the same pointer when it is
non-null and the object it points to is a `PointCloud`, else `nullptr`. -/
def dynamicCastPointCloud (h : Heap) (p : Option Ptr) : Option Ptr :=
  match p with
  | none => none
  | some a =>
    match h.deref a with
    | some (.pointCloud _) => some a
    | _ => none

/-- The function `getPointCloud(name)`:
`dynamic_cast<PointCloud*>(getStructure(PointCloud::structureTypeName, name))`. -/
def getPointCloud (env : Env T CS RS) (w : World CS RS) (name : String) : Option Ptr :=
  dynamicCastPointCloud w.heap (env.getStructure w.registry env.structureTypeName name)

/-- The call `getPointCloud()`: the parameter takes its default, `name = ""`. -/
def getPointCloudDefault (env : Env T CS RS) (w : World CS RS) : Option Ptr :=
  getPointCloud env w ""

/-- The `PointCloud` a pointer returned by `getPointCloud` points to. -/
def derefPointCloud (h : Heap) (p : Ptr) : Option PointCloud :=
  match h.deref p with
  | some (.pointCloud pc) => some pc
  | _ => none

/-! ## Collaborators modelled from the specification -/

/-- Modelled from the spec: `standardizeVectorArray<glm::vec3, 3>`, whose body
is not in this header.  It "converts arbitrary caller-provided array-like data
into a canonical contiguous sequence of 3-vectors; fails with a shape/type
error if input is not interpretable".  The caller's array is a list of rows; a
row of three components is a 3-vector, any other row is not interpretable. -/
def standardizeVectorArraySpec : List (List Scalar) → Except String (List Vec3)
  | [] => .ok []
  | row :: rest =>
    match row with
    | [a, b, c] =>
      match standardizeVectorArraySpec rest with
      | .ok vs => .ok (⟨a, b, c⟩ :: vs)
      | .error e => .error e
    | _ => .error "standardizeVectorArray: row is not a 3-vector"

/-- Modelled from the spec: `getNextUniqueColor()`, whose body is not in this
header: a "process-wide monotonic/deterministic allocator of visually-distinct
colors".  The state counts the colours handed out; colour `n` is a fixed
function of `n` that takes no value twice. -/
def getNextUniqueColorSpec (n : Nat) : Vec3 × Nat :=
  (⟨.finite (1 / ((n : ℚ) + 1)), 0, 0⟩, n + 1)

/-- Modelled from the spec: the virtual `typeName()`, whose body is not in this
header: it "returns a fixed structure-kind string".  For a `PointCloud` that
string is `PointCloud::structureTypeName`, the key `getPointCloud` looks up. -/
def Structure.typeName (structureTypeName : String) : Structure → String
  | .pointCloud _ => structureTypeName
  | .other typeName _ => typeName

/-- The member `name` of the base class `Structure`. -/
def Structure.name : Structure → String
  | .pointCloud pc => pc.name
  | .other _ name => name

/-- The structure registry: a "process-wide named-table of structures", keyed
by type name and instance name. -/
abbrev Registry := List ((String × String) × Ptr)

/-- The entry of the table under `(typeName, name)`. -/
def Registry.find (reg : Registry) (typeName name : String) : Option Ptr :=
  match reg with
  | [] => none
  | (key, p) :: rest => if key = (typeName, name) then some p else Registry.find rest typeName name

/-- Modelled from the spec: `registerStructure(ptr) -> bool`, whose body is not
in this header: "registry insertion keyed by structure type-name + instance
name; false on conflict".  A conflict leaves heap and table as they are. -/
def registerStructureSpec (structureTypeName : String) (h : Heap) (reg : Registry) (s : Ptr) :
    Bool × Heap × Registry :=
  match h.deref s with
  | none => (false, h, reg)
  | some st =>
    match reg.find (st.typeName structureTypeName) st.name with
    | some _ => (false, h, reg)
    | none => (true, h, ((st.typeName structureTypeName, st.name), s) :: reg)

/-- Modelled from the spec: `getStructure(typeName, name) -> Structure*`, whose
body is not in this header: "registry lookup; null if absent". -/
def getStructureSpec (reg : Registry) (typeName name : String) : Option Ptr :=
  reg.find typeName name

/-- An environment whose registry is the one modelled from the spec; the
standardizer, the colour allocator and the type-name constant stay those of
`env`. -/
def Env.withSpecRegistry (env : Env T CS Registry) : Env T CS Registry :=
  { env with
    registerStructure := registerStructureSpec env.structureTypeName
    getStructure := getStructureSpec }

/-- The environment with every collaborator modelled from the spec. -/
def specEnv : Env (List (List Scalar)) Nat Registry where
  standardizeVectorArray := standardizeVectorArraySpec
  getNextUniqueColor := getNextUniqueColorSpec
  structureTypeName := "Point Cloud"
  registerStructure := registerStructureSpec "Point Cloud"
  getStructure := getStructureSpec

/-- The process at start-up: nothing allocated, no colour drawn, no structure
registered. -/
def World.initial : World Nat Registry where
  heap := []
  colors := 0
  registry := []
  log := []

/-- The object the constructor body leaves behind once the standardizer has
returned `pts`: the value of `*s` right after `new PointCloud(name, points)`. -/
def builtPointCloud (env : Env T CS RS) (name : String) (pts : List Vec3)
    (w : World CS RS) : PointCloud :=
  { name := name, quantities := [], points := pts,
    initialBaseColor := (env.getNextUniqueColor w.colors).1,
    pointColor := (env.getNextUniqueColor w.colors).1 }

/-! ## Heap lemmas -/

theorem Heap.deref_fresh (h : Heap) : h.deref h.fresh = none := by
  simp [Heap.deref, Heap.fresh]

theorem Heap.deref_alloc (h : Heap) (s : Structure) (a : Ptr) :
    (h.alloc s).deref a = if a = h.fresh then some s else h.deref a := by
  unfold Heap.deref Heap.alloc Heap.fresh
  rcases Nat.lt_trichotomy a h.length with hlt | heq | hgt
  · rw [List.getElem?_append_left hlt, if_neg (Nat.ne_of_lt hlt)]
  · subst heq
    simp
  · have hne : a ≠ h.length := Nat.ne_of_gt hgt
    have h1 : (h ++ [some s])[a]? = none := by
      apply List.getElem?_eq_none
      simp
      omega
    have h2 : h[a]? = none := List.getElem?_eq_none (Nat.le_of_lt hgt)
    rw [h1, h2, if_neg hne]

theorem Heap.deref_free (h : Heap) (p a : Ptr) :
    (h.free p).deref a = if a = p then none else h.deref a := by
  unfold Heap.deref Heap.free
  by_cases hap : a = p
  · subst hap
    rw [if_pos rfl]
    by_cases hlt : a < h.length
    · simp [List.getElem?_set_self, hlt]
    · have hnone : (h.set a none)[a]? = none := by
        apply List.getElem?_eq_none
        rw [List.length_set]
        exact Nat.le_of_not_lt hlt
      rw [hnone]
  · rw [if_neg hap, List.getElem?_set_ne (Ne.symm hap)]

/-! ## The constructor -/

/-- What the constructor returns once the standardizer has returned `pts`. -/
theorem PointCloud.PointCloud_of_ok (env : Env T CS RS) (name : String) (points_ : T)
    (w : World CS RS) (pts : List Vec3) (h : env.standardizeVectorArray points_ = .ok pts) :
    PointCloud.PointCloud env name points_ w =
      (.ok (builtPointCloud env name pts w),
       { w with colors := (env.getNextUniqueColor w.colors).2,
                log := w.log ++ [Call.getNextUniqueColor] }) := by
  unfold PointCloud.PointCloud builtPointCloud
  rw [h]

/-- What the constructor returns once the standardizer has thrown `e`. -/
theorem PointCloud.PointCloud_of_error (env : Env T CS RS) (name : String) (points_ : T)
    (w : World CS RS) (e : String) (h : env.standardizeVectorArray points_ = .error e) :
    PointCloud.PointCloud env name points_ w = (.error e, w) := by
  unfold PointCloud.PointCloud
  rw [h]

/-- The standardizer modelled from the spec returns one 3-vector per row. -/
theorem standardizeVectorArraySpec_length (rows : List (List Scalar)) (pts : List Vec3)
    (h : standardizeVectorArraySpec rows = .ok pts) : pts.length = rows.length := by
  induction rows generalizing pts with
  | nil =>
    simp [standardizeVectorArraySpec] at h
    subst h
    rfl
  | cons row rest ih =>
    unfold standardizeVectorArraySpec at h
    split at h
    · split at h
      · rename_i vs hvs
        simp at h
        subst h
        simp [ih vs hvs]
      · simp at h
    · simp at h

/-- C1. For every input array the standardizer accepts, returning a sequence
`pts` of length `N`, `PointCloud(name, points_)` yields a structure whose
`nPoints()` is `N` and whose `points` is `pts`, element for element in the same
order; if the standardizer fails with `e`, construction fails with `e` and the
process state is as before: no structure is produced. -/
theorem PointCloud_constructor_points (env : Env T CS RS) (name : String) (points_ : T)
    (w : World CS RS) :
    (∀ (pts : List Vec3) (N : Nat),
      env.standardizeVectorArray points_ = .ok pts → pts.length = N →
      ∃ pc, (PointCloud.PointCloud env name points_ w).1 = .ok pc ∧ pc.nPoints = N ∧
        pc.points = pts ∧ ∀ i : Nat, pc.points[i]? = pts[i]?) ∧
    (∀ e, env.standardizeVectorArray points_ = .error e →
      PointCloud.PointCloud env name points_ w = (.error e, w)) := by
  refine ⟨?_, ?_⟩
  · intro pts N hok hN
    rw [PointCloud.PointCloud_of_ok env name points_ w pts hok]
    exact ⟨_, rfl, hN, rfl, fun _ => rfl⟩
  · intro e herr
    exact PointCloud.PointCloud_of_error env name points_ w e herr

/-- C1 at the three points `(0,0,0)`, `(1,0,0)`, `(0,1,0)`, with the
standardizer modelled from the spec. -/
theorem PointCloud_constructor_points_witness :
    ∃ pc, (PointCloud.PointCloud specEnv "cloud" [[0, 0, 0], [1, 0, 0], [0, 1, 0]]
        World.initial).1 = .ok pc ∧ pc.nPoints = 3 ∧
      pc.points = [⟨0, 0, 0⟩, ⟨1, 0, 0⟩, ⟨0, 1, 0⟩] ∧
      ∀ i : Nat, pc.points[i]? = ([⟨0, 0, 0⟩, ⟨1, 0, 0⟩, ⟨0, 1, 0⟩] : List Vec3)[i]? :=
  (PointCloud_constructor_points specEnv "cloud" [[0, 0, 0], [1, 0, 0], [0, 1, 0]]
    World.initial).1 [⟨0, 0, 0⟩, ⟨1, 0, 0⟩, ⟨0, 1, 0⟩] 3 rfl rfl

/-- C5. Every newly constructed `PointCloud` has `pointColor` equal to
`initialBaseColor`, both are the colour `getNextUniqueColor()` returned on the
process-wide colour state at this construction, and the construction leaves
that state as the allocator left it after this one call. -/
theorem PointCloud_constructor_color (env : Env T CS RS) (name : String) (points_ : T)
    (w : World CS RS) (pc : PointCloud)
    (h : (PointCloud.PointCloud env name points_ w).1 = .ok pc) :
    pc.pointColor = pc.initialBaseColor ∧
    pc.initialBaseColor = (env.getNextUniqueColor w.colors).1 ∧
    (PointCloud.PointCloud env name points_ w).2.colors = (env.getNextUniqueColor w.colors).2 ∧
    (PointCloud.PointCloud env name points_ w).2.log = w.log ++ [Call.getNextUniqueColor] := by
  cases hstd : env.standardizeVectorArray points_ with
  | error e =>
    rw [PointCloud.PointCloud_of_error env name points_ w e hstd] at h
    cases h
  | ok pts =>
    rw [PointCloud.PointCloud_of_ok env name points_ w pts hstd] at h ⊢
    cases h
    exact ⟨rfl, rfl, rfl, rfl⟩

/-- C5 at a one-point cloud built in the initial process state. -/
theorem PointCloud_constructor_color_witness :
    (builtPointCloud specEnv "cloud" [⟨0, 0, 0⟩] World.initial).pointColor =
      (builtPointCloud specEnv "cloud" [⟨0, 0, 0⟩] World.initial).initialBaseColor ∧
    (builtPointCloud specEnv "cloud" [⟨0, 0, 0⟩] World.initial).initialBaseColor =
      (getNextUniqueColorSpec 0).1 ∧
    (PointCloud.PointCloud specEnv "cloud" [[0, 0, 0]] World.initial).2.colors = 1 ∧
    (PointCloud.PointCloud specEnv "cloud" [[0, 0, 0]] World.initial).2.log =
      [Call.getNextUniqueColor] :=
  PointCloud_constructor_color specEnv "cloud" [[0, 0, 0]] World.initial
    (builtPointCloud specEnv "cloud" [⟨0, 0, 0⟩] World.initial) rfl

/-! ## Lookup -/

/-- C4. For every name, `getPointCloud(name)` returns null whenever
`getStructure(PointCloud::structureTypeName, name)` returns null, and whenever
it returns a structure that is not a `PointCloud`; `getPointCloud` is a total
function, so neither case fails. -/
theorem getPointCloud_null (env : Env T CS RS) (w : World CS RS) (name : String) :
    (env.getStructure w.registry env.structureTypeName name = none →
      getPointCloud env w name = none) ∧
    (∀ (p : Ptr) (typeName nm : String),
      env.getStructure w.registry env.structureTypeName name = some p →
      w.heap.deref p = some (.other typeName nm) →
      getPointCloud env w name = none) := by
  refine ⟨?_, ?_⟩
  · intro h
    simp [getPointCloud, dynamicCastPointCloud, h]
  · intro p typeName nm h hother
    simp [getPointCloud, dynamicCastPointCloud, h, hother]

/-- C4 at a registry that has nothing under `"cloud"`, and at a lookup that
returns a structure of another class. -/
theorem getPointCloud_null_witness :
    getPointCloud specEnv World.initial "cloud" = none ∧
    getPointCloud { specEnv with getStructure := fun _ _ _ => some 0 }
      { World.initial with heap := [some (.other "Surface Mesh" "cloud")] } "cloud" = none :=
  ⟨(getPointCloud_null specEnv World.initial "cloud").1 rfl,
    (getPointCloud_null { specEnv with getStructure := fun _ _ _ => some 0 }
      { World.initial with heap := [some (.other "Surface Mesh" "cloud")] } "cloud").2
      0 "Surface Mesh" "cloud" rfl rfl⟩

/-- C8. When `getStructure(PointCloud::structureTypeName, name)` returns
a structure that is a `PointCloud`, `getPointCloud(name)` returns that very
pointer, which still points to the same `PointCloud`; the result depends on
`getStructure` only through its answer at the key
`(PointCloud::structureTypeName, name)`; and `getPointCloud()` is
`getPointCloud("")`. -/
theorem getPointCloud_identity (env : Env T CS RS) (w : World CS RS) (name : String) :
    (∀ (p : Ptr) (pc : PointCloud),
      env.getStructure w.registry env.structureTypeName name = some p →
      w.heap.deref p = some (.pointCloud pc) →
      getPointCloud env w name = some p ∧ derefPointCloud w.heap p = some pc) ∧
    (∀ g : RS → String → String → Option Ptr,
      g w.registry env.structureTypeName name =
        env.getStructure w.registry env.structureTypeName name →
      getPointCloud { env with getStructure := g } w name = getPointCloud env w name) ∧
    getPointCloudDefault env w = getPointCloud env w "" := by
  refine ⟨?_, ?_, rfl⟩
  · intro p pc h hpc
    simp [getPointCloud, dynamicCastPointCloud, derefPointCloud, h, hpc]
  · intro g hg
    simp [getPointCloud, hg]

/-- C8 at the cloud `"cloud"` registered in the initial process state: the
lookup returns address `0`, where the registered cloud lives. -/
theorem getPointCloud_identity_witness :
    getPointCloud specEnv
      (registerPointCloud specEnv "cloud" [[0, 0, 0]] true World.initial).2 "cloud" = some 0 ∧
    derefPointCloud (registerPointCloud specEnv "cloud" [[0, 0, 0]] true World.initial).2.heap 0 =
      some (builtPointCloud specEnv "cloud" [⟨0, 0, 0⟩] World.initial) :=
  (getPointCloud_identity specEnv
    (registerPointCloud specEnv "cloud" [[0, 0, 0]] true World.initial).2 "cloud").1 0
    (builtPointCloud specEnv "cloud" [⟨0, 0, 0⟩] World.initial) (by decide) rfl

/-! ## Registration -/

/-- C9. `registerPointCloud` never reads `replaceIfPresent`: for every
environment, name, points and starting state, the call with `true` and the call
with `false` give the same result and the same final state: the same heap,
colour state and registry, and the same log, which records the pointer passed
to `registerStructure`, what it answered, and whether the structure was then
deleted. -/
theorem registerPointCloud_ignores_replaceIfPresent (env : Env T CS RS) (name : String)
    (points : T) (w : World CS RS) :
    registerPointCloud env name points true w = registerPointCloud env name points false w :=
  rfl

/-- What `registerPointCloud` does once the standardizer has thrown `e`. -/
theorem registerPointCloud_of_error (env : Env T CS RS) (name : String) (points : T)
    (replaceIfPresent : Bool) (w : World CS RS) (e : String)
    (h : env.standardizeVectorArray points = .error e) :
    registerPointCloud env name points replaceIfPresent w = (.error e, w) := by
  unfold registerPointCloud
  rw [PointCloud.PointCloud_of_error env name points w e h]

/-- What `registerPointCloud` does once the standardizer has returned `pts`
and `registerStructure` has answered `true`. -/
theorem registerPointCloud_of_success (env : Env T CS RS) (name : String) (points : T)
    (replaceIfPresent : Bool) (w : World CS RS) (pts : List Vec3)
    (h : env.standardizeVectorArray points = .ok pts)
    (hs : (env.registerStructure (w.heap.alloc (.pointCloud (builtPointCloud env name pts w)))
      w.registry w.heap.fresh).1 = true) :
    registerPointCloud env name points replaceIfPresent w =
      (.ok (),
       { heap := (env.registerStructure
            (w.heap.alloc (.pointCloud (builtPointCloud env name pts w)))
            w.registry w.heap.fresh).2.1
         colors := (env.getNextUniqueColor w.colors).2
         registry := (env.registerStructure
            (w.heap.alloc (.pointCloud (builtPointCloud env name pts w)))
            w.registry w.heap.fresh).2.2
         log := (w.log ++ [Call.getNextUniqueColor]) ++
            [Call.registerStructure w.heap.fresh true] }) := by
  unfold registerPointCloud
  rw [PointCloud.PointCloud_of_ok env name points w pts h]
  simp [hs]

/-- What `registerPointCloud` does once the standardizer has returned `pts`
and `registerStructure` has answered `false`. -/
theorem registerPointCloud_of_failure (env : Env T CS RS) (name : String) (points : T)
    (replaceIfPresent : Bool) (w : World CS RS) (pts : List Vec3)
    (h : env.standardizeVectorArray points = .ok pts)
    (hs : (env.registerStructure (w.heap.alloc (.pointCloud (builtPointCloud env name pts w)))
      w.registry w.heap.fresh).1 = false) :
    registerPointCloud env name points replaceIfPresent w =
      (.ok (),
       { heap := Heap.free (env.registerStructure
            (w.heap.alloc (.pointCloud (builtPointCloud env name pts w)))
            w.registry w.heap.fresh).2.1 w.heap.fresh
         colors := (env.getNextUniqueColor w.colors).2
         registry := (env.registerStructure
            (w.heap.alloc (.pointCloud (builtPointCloud env name pts w)))
            w.registry w.heap.fresh).2.2
         log := ((w.log ++ [Call.getNextUniqueColor]) ++
            [Call.registerStructure w.heap.fresh false]) ++ [Call.delete w.heap.fresh] }) := by
  unfold registerPointCloud
  rw [PointCloud.PointCloud_of_ok env name points w pts h]
  simp [hs]

/-- The modelled `registerStructure` on a `PointCloud` just allocated: it
answers by whether the table already has an entry under the type name and the
cloud's name, and leaves the heap as it is. -/
theorem registerStructureSpec_alloc (tn : String) (h : Heap) (reg : Registry)
    (pc : PointCloud) :
    registerStructureSpec tn (h.alloc (.pointCloud pc)) reg h.fresh =
      match reg.find tn pc.name with
      | some _ => (false, h.alloc (.pointCloud pc), reg)
      | none => (true, h.alloc (.pointCloud pc), ((tn, pc.name), h.fresh) :: reg) := by
  unfold registerStructureSpec
  rw [Heap.deref_alloc, if_pos rfl]
  simp only [Structure.typeName, Structure.name]

/-- The heap after `new` and `delete` of the same object holds what it held. -/
theorem Heap.deref_free_alloc (h : Heap) (s : Structure) (a : Ptr) :
    ((h.alloc s).free h.fresh).deref a = h.deref a := by
  rw [Heap.deref_free, Heap.deref_alloc]
  by_cases ha : a = h.fresh
  · rw [if_pos ha, ha, Heap.deref_fresh]
  · rw [if_neg ha, if_neg ha]

/-- C2, as amended. For every name, registry state and points that the
standardizer accepts, `registerPointCloud` constructs one new `PointCloud`
(with that name and the standardized points, at an address that held no object
before) and passes it to `registerStructure`, once. If `registerStructure`
returns false the new structure is deleted: its address holds no object, every
address holds what it held before the call, and the registry is as before the
call. If it returns true the structure is not deleted: its address holds the
new `PointCloud`, the registry holds it under the type name and `name`, and
every other address holds what it held before. -/
theorem registerPointCloud_registers_or_destroys (env : Env T CS Registry) (name : String)
    (points : T) (replaceIfPresent : Bool) (w : World CS Registry) (pts : List Vec3)
    (hstd : env.standardizeVectorArray points = .ok pts) :
    ∃ (pc : PointCloud) (success : Bool),
      pc.name = name ∧ pc.points = pts ∧
      w.heap.deref w.heap.fresh = none ∧
      success = (env.withSpecRegistry.registerStructure
        (w.heap.alloc (.pointCloud pc)) w.registry w.heap.fresh).1 ∧
      (registerPointCloud env.withSpecRegistry name points replaceIfPresent w).1 = .ok () ∧
      (registerPointCloud env.withSpecRegistry name points replaceIfPresent w).2.log =
        w.log ++ [Call.getNextUniqueColor, Call.registerStructure w.heap.fresh success] ++
          (if success then [] else [Call.delete w.heap.fresh]) ∧
      (success = false →
        (registerPointCloud env.withSpecRegistry name points replaceIfPresent w).2.heap.deref
          w.heap.fresh = none ∧
        (registerPointCloud env.withSpecRegistry name points replaceIfPresent w).2.registry =
          w.registry ∧
        ∀ a, (registerPointCloud env.withSpecRegistry name points replaceIfPresent
          w).2.heap.deref a = w.heap.deref a) ∧
      (success = true →
        (registerPointCloud env.withSpecRegistry name points replaceIfPresent w).2.heap.deref
          w.heap.fresh = some (.pointCloud pc) ∧
        (registerPointCloud env.withSpecRegistry name points replaceIfPresent
          w).2.registry.find env.structureTypeName name = some w.heap.fresh ∧
        ∀ a, a ≠ w.heap.fresh →
          (registerPointCloud env.withSpecRegistry name points replaceIfPresent
            w).2.heap.deref a = w.heap.deref a) := by
  have hstd2 : env.withSpecRegistry.standardizeVectorArray points = .ok pts := hstd
  have hreg := registerStructureSpec_alloc env.structureTypeName w.heap w.registry
    (builtPointCloud env.withSpecRegistry name pts w)
  have hname : (builtPointCloud env.withSpecRegistry name pts w).name = name := rfl
  rw [hname] at hreg
  have hcall : env.withSpecRegistry.registerStructure
      (w.heap.alloc (.pointCloud (builtPointCloud env.withSpecRegistry name pts w)))
      w.registry w.heap.fresh =
      registerStructureSpec env.structureTypeName
        (w.heap.alloc (.pointCloud (builtPointCloud env.withSpecRegistry name pts w)))
        w.registry w.heap.fresh := rfl
  cases hfind : w.registry.find env.structureTypeName name with
  | some p0 =>
    rw [hfind] at hreg
    have hs : (env.withSpecRegistry.registerStructure
        (w.heap.alloc (.pointCloud (builtPointCloud env.withSpecRegistry name pts w)))
        w.registry w.heap.fresh).1 = false := by rw [hcall, hreg]
    refine ⟨builtPointCloud env.withSpecRegistry name pts w, false, rfl, rfl,
      Heap.deref_fresh _, hs.symm, ?_⟩
    rw [registerPointCloud_of_failure env.withSpecRegistry name points replaceIfPresent w pts
      hstd2 hs, hcall, hreg]
    refine ⟨rfl, by simp, ?_, ?_⟩
    · intro _
      exact ⟨by rw [Heap.deref_free_alloc, Heap.deref_fresh], rfl,
        fun a => Heap.deref_free_alloc _ _ a⟩
    · intro hne
      cases hne
  | none =>
    rw [hfind] at hreg
    have hs : (env.withSpecRegistry.registerStructure
        (w.heap.alloc (.pointCloud (builtPointCloud env.withSpecRegistry name pts w)))
        w.registry w.heap.fresh).1 = true := by rw [hcall, hreg]
    refine ⟨builtPointCloud env.withSpecRegistry name pts w, true, rfl, rfl,
      Heap.deref_fresh _, hs.symm, ?_⟩
    rw [registerPointCloud_of_success env.withSpecRegistry name points replaceIfPresent w pts
      hstd2 hs, hcall, hreg]
    refine ⟨rfl, by simp, ?_, ?_⟩
    · intro hne
      cases hne
    · intro _
      refine ⟨by rw [Heap.deref_alloc, if_pos rfl], ?_, ?_⟩
      · show Registry.find (((env.structureTypeName, name), w.heap.fresh) :: w.registry)
          env.structureTypeName name = some w.heap.fresh
        simp [Registry.find]
      · intro a ha
        show (w.heap.alloc _).deref a = w.heap.deref a
        rw [Heap.deref_alloc, if_neg ha]

/-- C2 at a one-point cloud registered in the initial process state. -/
theorem registerPointCloud_registers_or_destroys_witness :
    ∃ (pc : PointCloud) (success : Bool),
      pc.name = "cloud" ∧ pc.points = [⟨0, 0, 0⟩] ∧
      (registerPointCloud specEnv.withSpecRegistry "cloud" [[0, 0, 0]] true
        World.initial).1 = .ok () ∧
      (registerPointCloud specEnv.withSpecRegistry "cloud" [[0, 0, 0]] true
        World.initial).2.log =
        [Call.getNextUniqueColor, Call.registerStructure 0 success] ++
          (if success then [] else [Call.delete 0]) :=
  (registerPointCloud_registers_or_destroys specEnv "cloud" [[0, 0, 0]] true World.initial
    [⟨0, 0, 0⟩] rfl).elim fun pc h => h.elim fun success h =>
      ⟨pc, success, h.1, h.2.1, h.2.2.2.2.1, h.2.2.2.2.2.1⟩

/-- C2 as stated fails on points the standardizer rejects: on an array whose
only row has two components the call ends in the standardizer's exception, the
heap holds no object and nothing was passed to `registerStructure`. -/
theorem registerPointCloud_rejected_points_constructs_nothing :
    (registerPointCloud specEnv "cloud" [[1, 2]] true World.initial).1 =
        .error "standardizeVectorArray: row is not a 3-vector" ∧
      (registerPointCloud specEnv "cloud" [[1, 2]] true World.initial).2.heap = [] ∧
      (registerPointCloud specEnv "cloud" [[1, 2]] true World.initial).2.registry = [] ∧
      ∀ s success, Call.registerStructure s success ∉
        (registerPointCloud specEnv "cloud" [[1, 2]] true World.initial).2.log := by
  refine ⟨rfl, rfl, rfl, ?_⟩
  intro s success hmem
  have hlog : (registerPointCloud specEnv "cloud" [[1, 2]] true World.initial).2.log = [] := rfl
  rw [hlog] at hmem
  cases hmem

/-- C10, as amended. Every call of `registerPointCloud` on points the
standardizer accepts draws exactly one colour from the process-wide allocator:
the colour state after the call is the state one `getNextUniqueColor()` leaves,
the log gains exactly one `getNextUniqueColor`, placed before the one
`registerStructure`, and this is so whether `registerStructure` answers true or
false; so when the allocator's state moves on a draw, a failed registration
still leaves the colour state changed. -/
theorem registerPointCloud_draws_one_color (env : Env T CS RS) (name : String) (points : T)
    (replaceIfPresent : Bool) (w : World CS RS) (pts : List Vec3)
    (hstd : env.standardizeVectorArray points = .ok pts) :
    (registerPointCloud env name points replaceIfPresent w).2.colors =
      (env.getNextUniqueColor w.colors).2 ∧
    (∃ success : Bool,
      success = (env.registerStructure
        (w.heap.alloc (.pointCloud (builtPointCloud env name pts w)))
        w.registry w.heap.fresh).1 ∧
      (registerPointCloud env name points replaceIfPresent w).2.log =
        w.log ++ [Call.getNextUniqueColor, Call.registerStructure w.heap.fresh success] ++
          (if success then [] else [Call.delete w.heap.fresh])) ∧
    (registerPointCloud env name points replaceIfPresent w).2.log.count
        Call.getNextUniqueColor = w.log.count Call.getNextUniqueColor + 1 ∧
    ((env.getNextUniqueColor w.colors).2 ≠ w.colors →
      (registerPointCloud env name points replaceIfPresent w).2.colors ≠ w.colors) := by
  cases hs : (env.registerStructure
      (w.heap.alloc (.pointCloud (builtPointCloud env name pts w)))
      w.registry w.heap.fresh).1 with
  | false =>
    rw [registerPointCloud_of_failure env name points replaceIfPresent w pts hstd hs]
    refine ⟨rfl, ⟨false, rfl, by simp⟩, ?_, fun h => h⟩
    simp [List.count_append, List.count_cons]
  | true =>
    rw [registerPointCloud_of_success env name points replaceIfPresent w pts hstd hs]
    refine ⟨rfl, ⟨true, rfl, by simp⟩, ?_, fun h => h⟩
    simp [List.count_append, List.count_cons]

/-- C10 at a registration that fails: a second cloud named `"cloud"` after
a first one is registered under that name. -/
theorem registerPointCloud_draws_one_color_witness :
    (registerPointCloud specEnv "cloud" [[0, 0, 0]] true
      (registerPointCloud specEnv "cloud" [[0, 0, 0]] true World.initial).2).2.colors = 2 ∧
    Call.delete 1 ∈ (registerPointCloud specEnv "cloud" [[0, 0, 0]] true
      (registerPointCloud specEnv "cloud" [[0, 0, 0]] true World.initial).2).2.log :=
  ⟨(registerPointCloud_draws_one_color specEnv "cloud" [[0, 0, 0]] true
      (registerPointCloud specEnv "cloud" [[0, 0, 0]] true World.initial).2
      [⟨0, 0, 0⟩] rfl).1, by decide⟩

/-- C10 as stated fails on points the standardizer rejects: the constructor
leaves through the exception before its body runs, so the call draws no
colour. -/
theorem registerPointCloud_rejected_points_draws_no_color :
    (registerPointCloud specEnv "cloud" [[1, 2]] true World.initial).2.colors =
        World.initial.colors ∧
      (registerPointCloud specEnv "cloud" [[1, 2]] true World.initial).2.log.count
        Call.getNextUniqueColor = 0 := by
  exact ⟨rfl, rfl⟩

/-- C3. When a point cloud is registered under `name` and
`registerPointCloud(name, points, false)` is called, the registry is unaltered,
`getPointCloud(name)` afterwards still returns the original structure, which is
unchanged, and every address of the heap holds what it held before, so the
new structure is not kept; when the standardizer accepts the points the call
returns normally after `registerStructure` answered false and the
new structure was deleted. -/
theorem registerPointCloud_collision_keeps_original (env : Env T CS Registry) (name : String)
    (points : T) (w : World CS Registry) (p0 : Ptr) (pc0 : PointCloud)
    (hreg : getStructureSpec w.registry env.structureTypeName name = some p0)
    (hpc : w.heap.deref p0 = some (.pointCloud pc0)) :
    (registerPointCloud env.withSpecRegistry name points false w).2.registry = w.registry ∧
    getPointCloud env.withSpecRegistry
      (registerPointCloud env.withSpecRegistry name points false w).2 name = some p0 ∧
    derefPointCloud (registerPointCloud env.withSpecRegistry name points false w).2.heap p0 =
      some pc0 ∧
    (∀ a, (registerPointCloud env.withSpecRegistry name points false w).2.heap.deref a =
      w.heap.deref a) ∧
    (∀ pts, env.standardizeVectorArray points = .ok pts →
      (registerPointCloud env.withSpecRegistry name points false w).1 = .ok () ∧
      (registerPointCloud env.withSpecRegistry name points false w).2.log =
        w.log ++ [Call.getNextUniqueColor, Call.registerStructure w.heap.fresh false,
          Call.delete w.heap.fresh]) := by
  have hfind : w.registry.find env.structureTypeName name = some p0 := hreg
  have key : (registerPointCloud env.withSpecRegistry name points false w).2.registry =
        w.registry ∧
      (∀ a, (registerPointCloud env.withSpecRegistry name points false w).2.heap.deref a =
        w.heap.deref a) ∧
      (∀ pts, env.standardizeVectorArray points = .ok pts →
        (registerPointCloud env.withSpecRegistry name points false w).1 = .ok () ∧
        (registerPointCloud env.withSpecRegistry name points false w).2.log =
          w.log ++ [Call.getNextUniqueColor, Call.registerStructure w.heap.fresh false,
            Call.delete w.heap.fresh]) := by
    cases hstd : env.standardizeVectorArray points with
    | error e =>
      have hstd2 : env.withSpecRegistry.standardizeVectorArray points = .error e := hstd
      rw [registerPointCloud_of_error env.withSpecRegistry name points false w e hstd2]
      refine ⟨rfl, fun _ => rfl, ?_⟩
      intro pts hpts
      cases hpts
    | ok pts =>
      have hstd2 : env.withSpecRegistry.standardizeVectorArray points = .ok pts := hstd
      have hcall : env.withSpecRegistry.registerStructure
          (w.heap.alloc (.pointCloud (builtPointCloud env.withSpecRegistry name pts w)))
          w.registry w.heap.fresh =
          (false, w.heap.alloc (.pointCloud (builtPointCloud env.withSpecRegistry name pts w)),
            w.registry) := by
        have h := registerStructureSpec_alloc env.structureTypeName w.heap w.registry
          (builtPointCloud env.withSpecRegistry name pts w)
        have hname : (builtPointCloud env.withSpecRegistry name pts w).name = name := rfl
        rw [hname, hfind] at h
        exact h
      have hs : (env.withSpecRegistry.registerStructure
          (w.heap.alloc (.pointCloud (builtPointCloud env.withSpecRegistry name pts w)))
          w.registry w.heap.fresh).1 = false := by rw [hcall]
      rw [registerPointCloud_of_failure env.withSpecRegistry name points false w pts hstd2 hs,
        hcall]
      refine ⟨rfl, fun a => Heap.deref_free_alloc _ _ a, ?_⟩
      intro pts2 hpts
      cases hpts
      exact ⟨rfl, by simp⟩
  obtain ⟨hregistry, hheap, hrun⟩ := key
  refine ⟨hregistry, ?_, ?_, hheap, hrun⟩
  · unfold getPointCloud dynamicCastPointCloud
    rw [hregistry]
    have hget : env.withSpecRegistry.getStructure w.registry
        env.withSpecRegistry.structureTypeName name = some p0 := hreg
    rw [hget]
    simp only [hheap p0, hpc]
  · unfold derefPointCloud
    simp only [hheap p0, hpc]

/-- C3 at a second `registerPointCloud("cloud", _, false)` after a first cloud
is registered under `"cloud"` at address `0`. -/
theorem registerPointCloud_collision_keeps_original_witness :
    getPointCloud specEnv.withSpecRegistry
      (registerPointCloud specEnv.withSpecRegistry "cloud" [[1, 1, 1], [2, 2, 2]] false
        (registerPointCloud specEnv "cloud" [[0, 0, 0]] true World.initial).2).2 "cloud" =
      some 0 ∧
    derefPointCloud
      (registerPointCloud specEnv.withSpecRegistry "cloud" [[1, 1, 1], [2, 2, 2]] false
        (registerPointCloud specEnv "cloud" [[0, 0, 0]] true World.initial).2).2.heap 0 =
      some (builtPointCloud specEnv "cloud" [⟨0, 0, 0⟩] World.initial) :=
  have h := registerPointCloud_collision_keeps_original specEnv "cloud" [[1, 1, 1], [2, 2, 2]]
    (registerPointCloud specEnv "cloud" [[0, 0, 0]] true World.initial).2 0
    (builtPointCloud specEnv "cloud" [⟨0, 0, 0⟩] World.initial) (by decide) rfl
  ⟨h.2.1, h.2.2.1⟩

/-! ## Bounding box -/

theorem Scalar.le_def (a b : Scalar) : a ≤ b ↔ Scalar.ble a b = true :=
  Iff.rfl

theorem Scalar.lt_def (a b : Scalar) : a < b ↔ Scalar.blt a b = true :=
  Iff.rfl

/-- No value is below or above NaN, and NaN is below or above no value. -/
theorem Scalar.not_le_nan (a : Scalar) : ¬ a ≤ Scalar.nan ∧ ¬ Scalar.nan ≤ a := by
  rw [Scalar.le_def, Scalar.le_def]
  cases a <;> simp [Scalar.ble]

theorem Scalar.le_of_le_of_le {a b c : Scalar} (h1 : a ≤ b) (h2 : b ≤ c) : a ≤ c := by
  rw [Scalar.le_def] at *
  cases a <;> cases b <;> cases c <;> simp [Scalar.ble] at *
  exact h1.trans h2

theorem Scalar.le_self {a : Scalar} (ha : a.isNaN = false) : a ≤ a := by
  rw [Scalar.le_def]
  cases a <;> simp [Scalar.ble, Scalar.isNaN] at *

theorem Scalar.min_le_left {a b : Scalar} (ha : a.isNaN = false) (hb : b.isNaN = false) :
    Scalar.min a b ≤ a := by
  unfold Scalar.min
  split
  · rename_i h
    rw [Scalar.lt_def] at h
    rw [Scalar.le_def]
    cases a <;> cases b <;> simp [Scalar.ble, Scalar.blt, Scalar.isNaN] at *
    exact le_of_lt h
  · exact Scalar.le_self ha

theorem Scalar.min_le_right {a b : Scalar} (ha : a.isNaN = false) (hb : b.isNaN = false) :
    Scalar.min a b ≤ b := by
  unfold Scalar.min
  split
  · exact Scalar.le_self hb
  · rename_i h
    rw [Scalar.lt_def] at h
    rw [Scalar.le_def]
    cases a <;> cases b <;> simp [Scalar.ble, Scalar.blt, Scalar.isNaN] at *
    exact h

theorem Scalar.le_max_left {a b : Scalar} (ha : a.isNaN = false) (hb : b.isNaN = false) :
    a ≤ Scalar.max a b := by
  unfold Scalar.max
  split
  · rename_i h
    rw [Scalar.lt_def] at h
    rw [Scalar.le_def]
    cases a <;> cases b <;> simp [Scalar.ble, Scalar.blt, Scalar.isNaN] at *
    exact le_of_lt h
  · exact Scalar.le_self ha

theorem Scalar.le_max_right {a b : Scalar} (ha : a.isNaN = false) (hb : b.isNaN = false) :
    b ≤ Scalar.max a b := by
  unfold Scalar.max
  split
  · exact Scalar.le_self hb
  · rename_i h
    rw [Scalar.lt_def] at h
    rw [Scalar.le_def]
    cases a <;> cases b <;> simp [Scalar.ble, Scalar.blt, Scalar.isNaN] at *
    exact h

theorem Scalar.min_isNaN {a b : Scalar} (ha : a.isNaN = false) (hb : b.isNaN = false) :
    (Scalar.min a b).isNaN = false := by
  unfold Scalar.min
  split
  · exact hb
  · exact ha

theorem Scalar.max_isNaN {a b : Scalar} (ha : a.isNaN = false) (hb : b.isNaN = false) :
    (Scalar.max a b).isNaN = false := by
  unfold Scalar.max
  split
  · exact hb
  · exact ha

/-- The three components of a vector without NaN. -/
theorem Vec3.hasNaN_false {v : Vec3} (h : v.hasNaN = false) :
    v.x.isNaN = false ∧ v.y.isNaN = false ∧ v.z.isNaN = false := by
  unfold Vec3.hasNaN at h
  simp only [Bool.or_eq_false_iff] at h
  exact ⟨h.1.1, h.1.2, h.2⟩

theorem Vec3.min_hasNaN {a b : Vec3} (ha : a.hasNaN = false) (hb : b.hasNaN = false) :
    (Vec3.min a b).hasNaN = false := by
  obtain ⟨ax, ay, az⟩ := Vec3.hasNaN_false ha
  obtain ⟨bx, b2, bz⟩ := Vec3.hasNaN_false hb
  simp [Vec3.hasNaN, Vec3.min, Scalar.min_isNaN, ax, ay, az, bx, b2, bz]

theorem Vec3.max_hasNaN {a b : Vec3} (ha : a.hasNaN = false) (hb : b.hasNaN = false) :
    (Vec3.max a b).hasNaN = false := by
  obtain ⟨ax, ay, az⟩ := Vec3.hasNaN_false ha
  obtain ⟨bx, b2, bz⟩ := Vec3.hasNaN_false hb
  simp [Vec3.hasNaN, Vec3.max, Scalar.max_isNaN, ax, ay, az, bx, b2, bz]

/-- Folding points without NaN into a box whose corners have no NaN keeps
the box's corners outside the starting corners and puts every folded point
inside. -/
theorem boundingBox_foldl (rest : List Vec3) (lo hi : Vec3)
    (hlo : lo.hasNaN = false) (hhi : hi.hasNaN = false)
    (hrest : ∀ q ∈ rest, q.hasNaN = false) :
    ((rest.foldl (fun box q => (Vec3.min box.1 q, Vec3.max box.2 q)) (lo, hi)).1.x ≤ lo.x ∧
      (rest.foldl (fun box q => (Vec3.min box.1 q, Vec3.max box.2 q)) (lo, hi)).1.y ≤ lo.y ∧
      (rest.foldl (fun box q => (Vec3.min box.1 q, Vec3.max box.2 q)) (lo, hi)).1.z ≤ lo.z) ∧
    (hi.x ≤ (rest.foldl (fun box q => (Vec3.min box.1 q, Vec3.max box.2 q)) (lo, hi)).2.x ∧
      hi.y ≤ (rest.foldl (fun box q => (Vec3.min box.1 q, Vec3.max box.2 q)) (lo, hi)).2.y ∧
      hi.z ≤ (rest.foldl (fun box q => (Vec3.min box.1 q, Vec3.max box.2 q)) (lo, hi)).2.z) ∧
    ∀ q ∈ rest,
      ((rest.foldl (fun box q => (Vec3.min box.1 q, Vec3.max box.2 q)) (lo, hi)).1.x ≤ q.x ∧
        q.x ≤ (rest.foldl (fun box q => (Vec3.min box.1 q, Vec3.max box.2 q)) (lo, hi)).2.x) ∧
      ((rest.foldl (fun box q => (Vec3.min box.1 q, Vec3.max box.2 q)) (lo, hi)).1.y ≤ q.y ∧
        q.y ≤ (rest.foldl (fun box q => (Vec3.min box.1 q, Vec3.max box.2 q)) (lo, hi)).2.y) ∧
      ((rest.foldl (fun box q => (Vec3.min box.1 q, Vec3.max box.2 q)) (lo, hi)).1.z ≤ q.z ∧
        q.z ≤ (rest.foldl (fun box q => (Vec3.min box.1 q, Vec3.max box.2 q)) (lo, hi)).2.z) := by
  induction rest generalizing lo hi with
  | nil =>
    obtain ⟨lx, ly, lz⟩ := Vec3.hasNaN_false hlo
    obtain ⟨hx, hy, hz⟩ := Vec3.hasNaN_false hhi
    refine ⟨⟨Scalar.le_self lx, Scalar.le_self ly, Scalar.le_self lz⟩,
      ⟨Scalar.le_self hx, Scalar.le_self hy, Scalar.le_self hz⟩, ?_⟩
    intro q hq
    cases hq
  | cons r rest ih =>
    simp only [List.foldl_cons]
    have hr : r.hasNaN = false := hrest r (List.mem_cons_self r rest)
    obtain ⟨lx, ly, lz⟩ := Vec3.hasNaN_false hlo
    obtain ⟨hx, hy, hz⟩ := Vec3.hasNaN_false hhi
    obtain ⟨rx, ry, rz⟩ := Vec3.hasNaN_false hr
    obtain ⟨⟨hlx, hly, hlz⟩, ⟨hhx, hhy, hhz⟩, hin⟩ :=
      ih (Vec3.min lo r) (Vec3.max hi r) (Vec3.min_hasNaN hlo hr) (Vec3.max_hasNaN hhi hr)
        (fun q hq => hrest q (List.mem_cons_of_mem r hq))
    have mx : (Vec3.min lo r).x = Scalar.min lo.x r.x := rfl
    have my : (Vec3.min lo r).y = Scalar.min lo.y r.y := rfl
    have mz : (Vec3.min lo r).z = Scalar.min lo.z r.z := rfl
    have Mx : (Vec3.max hi r).x = Scalar.max hi.x r.x := rfl
    have My : (Vec3.max hi r).y = Scalar.max hi.y r.y := rfl
    have Mz : (Vec3.max hi r).z = Scalar.max hi.z r.z := rfl
    rw [mx] at hlx
    rw [my] at hly
    rw [mz] at hlz
    rw [Mx] at hhx
    rw [My] at hhy
    rw [Mz] at hhz
    refine ⟨⟨Scalar.le_of_le_of_le hlx (Scalar.min_le_left lx rx),
        Scalar.le_of_le_of_le hly (Scalar.min_le_left ly ry),
        Scalar.le_of_le_of_le hlz (Scalar.min_le_left lz rz)⟩,
      ⟨Scalar.le_of_le_of_le (Scalar.le_max_left hx rx) hhx,
        Scalar.le_of_le_of_le (Scalar.le_max_left hy ry) hhy,
        Scalar.le_of_le_of_le (Scalar.le_max_left hz rz) hhz⟩, ?_⟩
    intro q hq
    rcases List.mem_cons.mp hq with heq | hmem
    · subst heq
      exact ⟨⟨Scalar.le_of_le_of_le hlx (Scalar.min_le_right lx rx),
          Scalar.le_of_le_of_le (Scalar.le_max_right hx rx) hhx⟩,
        ⟨Scalar.le_of_le_of_le hly (Scalar.min_le_right ly ry),
          Scalar.le_of_le_of_le (Scalar.le_max_right hy ry) hhy⟩,
        ⟨Scalar.le_of_le_of_le hlz (Scalar.min_le_right lz rz),
          Scalar.le_of_le_of_le (Scalar.le_max_right hz rz) hhz⟩⟩
    · exact hin q hmem

/-- C6, as amended. `boundingBox()` on a point cloud with no points returns
a box whose min corner equals its max corner; on a point cloud none of whose
coordinates is NaN every point lies inside the returned box, inclusively, on
each axis; and for the points `(0,0,0)`, `(1,0,0)`, `(0,1,0)` the box is min
`(0,0,0)`, max `(1,1,0)`. -/
theorem PointCloud_boundingBox_contains (self : PointCloud) :
    (self.points = [] → self.boundingBox.1 = self.boundingBox.2) ∧
    ((∀ q ∈ self.points, q.hasNaN = false) →
      ∀ p ∈ self.points,
        (self.boundingBox.1.x ≤ p.x ∧ p.x ≤ self.boundingBox.2.x) ∧
        (self.boundingBox.1.y ≤ p.y ∧ p.y ≤ self.boundingBox.2.y) ∧
        (self.boundingBox.1.z ≤ p.z ∧ p.z ≤ self.boundingBox.2.z)) ∧
    (self.points = [⟨0, 0, 0⟩, ⟨1, 0, 0⟩, ⟨0, 1, 0⟩] →
      self.boundingBox = (⟨0, 0, 0⟩, ⟨1, 1, 0⟩)) := by
  refine ⟨?_, ?_, ?_⟩
  · intro hnil
    unfold PointCloud.boundingBox
    rw [hnil]
  · intro hnan p hp
    unfold PointCloud.boundingBox
    cases hpts : self.points with
    | nil =>
      rw [hpts] at hp
      cases hp
    | cons first rest =>
      rw [hpts] at hp hnan
      have hfirst : first.hasNaN = false := hnan first (List.mem_cons_self first rest)
      obtain ⟨⟨hlx, hly, hlz⟩, ⟨hhx, hhy, hhz⟩, hin⟩ :=
        boundingBox_foldl rest first first hfirst hfirst
          (fun q hq => hnan q (List.mem_cons_of_mem first hq))
      rcases List.mem_cons.mp hp with heq | hmem
      · subst heq
        exact ⟨⟨hlx, hhx⟩, ⟨hly, hhy⟩, ⟨hlz, hhz⟩⟩
      · exact hin p hmem
  · intro hpts
    unfold PointCloud.boundingBox
    rw [hpts]
    decide

/-- C6 at the cloud of the three points `(0,0,0)`, `(1,0,0)`, `(0,1,0)`: no
coordinate is NaN, and the point `(1,0,0)` lies inside the box on each axis. -/
theorem PointCloud_boundingBox_contains_witness :
    ((builtPointCloud specEnv "cloud" [⟨0, 0, 0⟩, ⟨1, 0, 0⟩, ⟨0, 1, 0⟩]
        World.initial).boundingBox.1.x ≤ 1 ∧
      1 ≤ (builtPointCloud specEnv "cloud" [⟨0, 0, 0⟩, ⟨1, 0, 0⟩, ⟨0, 1, 0⟩]
        World.initial).boundingBox.2.x) ∧
    ((builtPointCloud specEnv "cloud" [⟨0, 0, 0⟩, ⟨1, 0, 0⟩, ⟨0, 1, 0⟩]
        World.initial).boundingBox.1.y ≤ 0 ∧
      0 ≤ (builtPointCloud specEnv "cloud" [⟨0, 0, 0⟩, ⟨1, 0, 0⟩, ⟨0, 1, 0⟩]
        World.initial).boundingBox.2.y) ∧
    ((builtPointCloud specEnv "cloud" [⟨0, 0, 0⟩, ⟨1, 0, 0⟩, ⟨0, 1, 0⟩]
        World.initial).boundingBox.1.z ≤ 0 ∧
      0 ≤ (builtPointCloud specEnv "cloud" [⟨0, 0, 0⟩, ⟨1, 0, 0⟩, ⟨0, 1, 0⟩]
        World.initial).boundingBox.2.z) :=
  (PointCloud_boundingBox_contains
    (builtPointCloud specEnv "cloud" [⟨0, 0, 0⟩, ⟨1, 0, 0⟩, ⟨0, 1, 0⟩] World.initial)).2.1
    (by decide) ⟨1, 0, 0⟩ (by decide)

/-- C6 as stated fails on a point with a NaN coordinate: the box of the
one-point cloud `(NaN, 0, 0)` does not contain the point on the x axis, and no
box could, since no value is below or above NaN. -/
theorem PointCloud_boundingBox_nan_point_outside :
    ¬ ((builtPointCloud specEnv "cloud" [⟨Scalar.nan, 0, 0⟩] World.initial).boundingBox.1.x ≤
        Scalar.nan ∧
      Scalar.nan ≤
        (builtPointCloud specEnv "cloud" [⟨Scalar.nan, 0, 0⟩] World.initial).boundingBox.2.x) ∧
    ∀ lo hi : Scalar, ¬ (lo ≤ Scalar.nan ∧ Scalar.nan ≤ hi) := by
  refine ⟨?_, ?_⟩
  · intro h
    exact (Scalar.not_le_nan _).1 h.1
  · intro lo hi h
    exact (Scalar.not_le_nan lo).1 h.1

/-! ## Quantities -/

/-- A quantity just inserted under `name` is the one found under `name`. -/
theorem PointCloud.getQuantity_addQuantity (self : polyscope.PointCloud) (name : String)
    (q : PointCloudQuantity) : (self.addQuantity name q).getQuantity name = some q := by
  simp [PointCloud.getQuantity, PointCloud.addQuantity]

/-- C7. For every point cloud with `N` points and every value array that
standardizes to `data`: when the length of `data` differs from `N`,
`addScalarQuantity`, `addColorQuantity` and `addVectorQuantity` fail with the
size-mismatch error and return the structure as it was, its quantities
unchanged; when the length is `N` they succeed and the new quantity is the one
found under its name. -/
theorem PointCloud_addQuantity_size_check {TS : Type} (self : PointCloud) (name : String) :
    (∀ (standardizeArray : TS → Except String (List Scalar)) (values : TS)
        (data : List Scalar) (type : DataType), standardizeArray values = .ok data →
      (data.length ≠ self.nPoints →
        self.addScalarQuantity standardizeArray name values type =
          (.error (.sizeMismatch name self.nPoints data.length), self)) ∧
      (data.length = self.nPoints →
        (self.addScalarQuantity standardizeArray name values type).1 =
          .ok (.scalar data type) ∧
        (self.addScalarQuantity standardizeArray name values type).2.getQuantity name =
          some (.scalar data type))) ∧
    (∀ (standardizeVectorArray : T → Except String (List Vec3)) (values : T)
        (colors : List Vec3), standardizeVectorArray values = .ok colors →
      (colors.length ≠ self.nPoints →
        self.addColorQuantity standardizeVectorArray name values =
          (.error (.sizeMismatch name self.nPoints colors.length), self)) ∧
      (colors.length = self.nPoints →
        (self.addColorQuantity standardizeVectorArray name values).1 = .ok (.color colors) ∧
        (self.addColorQuantity standardizeVectorArray name values).2.getQuantity name =
          some (.color colors))) ∧
    (∀ (standardizeVectorArray : T → Except String (List Vec3)) (values : T)
        (vectors : List Vec3) (vectorType : VectorType),
        standardizeVectorArray values = .ok vectors →
      (vectors.length ≠ self.nPoints →
        self.addVectorQuantity standardizeVectorArray name values vectorType =
          (.error (.sizeMismatch name self.nPoints vectors.length), self)) ∧
      (vectors.length = self.nPoints →
        (self.addVectorQuantity standardizeVectorArray name values vectorType).1 =
          .ok (.vector vectors vectorType) ∧
        (self.addVectorQuantity standardizeVectorArray name values vectorType).2.getQuantity
          name = some (.vector vectors vectorType))) := by
  refine ⟨?_, ?_, ?_⟩
  · intro std values data type hstd
    unfold PointCloud.addScalarQuantity PointCloud.addScalarQuantityImpl
    rw [hstd]
    refine ⟨?_, ?_⟩
    · intro hne
      simp only [if_pos hne]
    · intro heq
      dsimp only
      rw [if_neg (not_not.mpr heq)]
      exact ⟨rfl, PointCloud.getQuantity_addQuantity self name _⟩
  · intro std values colors hstd
    unfold PointCloud.addColorQuantity PointCloud.addColorQuantityImpl
    rw [hstd]
    refine ⟨?_, ?_⟩
    · intro hne
      simp only [if_pos hne]
    · intro heq
      dsimp only
      rw [if_neg (not_not.mpr heq)]
      exact ⟨rfl, PointCloud.getQuantity_addQuantity self name _⟩
  · intro std values vectors vectorType hstd
    unfold PointCloud.addVectorQuantity PointCloud.addVectorQuantityImpl
    rw [hstd]
    refine ⟨?_, ?_⟩
    · intro hne
      simp only [if_pos hne]
    · intro heq
      dsimp only
      rw [if_neg (not_not.mpr heq)]
      exact ⟨rfl, PointCloud.getQuantity_addQuantity self name _⟩

/-- C7 on a cloud of two points: a scalar array of three values is refused
and the cloud is returned as it was; a colour array of two rows is attached
and found under its name. -/
theorem PointCloud_addQuantity_size_check_witness :
    (builtPointCloud specEnv "cloud" [⟨0, 0, 0⟩, ⟨1, 0, 0⟩] World.initial).addScalarQuantity
        standardizeArrayCanonical "height" [1, 2, 3] DataType.STANDARD =
      (.error (.sizeMismatch "height" 2 3),
        builtPointCloud specEnv "cloud" [⟨0, 0, 0⟩, ⟨1, 0, 0⟩] World.initial) ∧
    ((builtPointCloud specEnv "cloud" [⟨0, 0, 0⟩, ⟨1, 0, 0⟩] World.initial).addColorQuantity
        standardizeVectorArraySpec "tint" [[1, 0, 0], [0, 1, 0]]).2.getQuantity "tint" =
      some (.color [⟨1, 0, 0⟩, ⟨0, 1, 0⟩]) :=
  have h := @PointCloud_addQuantity_size_check (List (List Scalar)) (List Scalar)
    (builtPointCloud specEnv "cloud" [⟨0, 0, 0⟩, ⟨1, 0, 0⟩] World.initial)
  ⟨((h "height").1 standardizeArrayCanonical [1, 2, 3] [1, 2, 3] DataType.STANDARD rfl).1
      (by decide),
    (((h "tint").2.1 standardizeVectorArraySpec [[1, 0, 0], [0, 1, 0]]
      [⟨1, 0, 0⟩, ⟨0, 1, 0⟩] rfl).2 rfl).2⟩

end polyscope
